import Mathlib

/-!
Verification of the `historian` activity-report generator.

The definitions below are a shallow embedding of the Python sources:
  * `src/sources/github.py`  — GitHub event filtering and rendering helpers
  * `src/sources/bugzilla.py` — Bugzilla field-change classification and
    bucketed reporting

Timestamps are modelled as integers (`Int`), event payloads as the fields
the embedded functions actually inspect, Python strings as `String`, and
Python exceptions as `Option`/`none`.
-/

namespace Historian

/-- A GitHub event, restricted to the fields used by `prune` and
`filter_types`: its `created_at` timestamp and its `type` string. -/
structure Event where
  created : Int
  type : String
deriving Repr, DecidableEq

/-- `KEEP_EVENTS` from `src/sources/github.py`. -/
def KEEP_EVENTS : List String :=
  ["CommitCommentEvent", "GollumEvent", "IssueCommentEvent", "IssuesEvent",
   "PublicEvent", "PullRequestEvent", "PullRequestReviewCommentEvent",
   "PushEvent", "ReleaseEvent"]

/-- `IGNORE_EVENTS` from `src/sources/github.py`, as Python evaluates the
literal: the first five string literals (from the "Obsolete" group through
`'DeploymentEvent'`) carry no separating commas, so Python's implicit
adjacent-string concatenation fuses them into a single list element. -/
def IGNORE_EVENTS : List String :=
  ["DownloadEventFollowEventForkApplyEventGistEventDeploymentEvent",
   "DeploymentStatusEvent", "MembershipEvent", "PageBuildEvent",
   "RepositoryEvent", "StatusEvent", "TeamAddEvent",
   "CreateEvent", "DeleteEvent", "ForkEvent", "MemberEvent", "WatchEvent"]

/-- `KNOWN_EVENTS = KEEP_EVENTS + IGNORE_EVENTS`. -/
def KNOWN_EVENTS : List String := KEEP_EVENTS ++ IGNORE_EVENTS

/-- `filter_types(types, iterable, verbose)`: partitions the events on
membership of `event.type` in `types`, returns the matching ones, and when
`verbose` also the warning lines printed for the non-matching ones. -/
def filter_types (types : List String) (events : List Event) (verbose : Bool) :
    List Event × List String :=
  let known := events.filter (fun e => types.contains e.type)
  let unknown := events.filter (fun e => !(types.contains e.type))
  (known,
   if verbose then
     unknown.map (fun e => "Warning: Ignored or unknown event type: " ++ e.type)
   else [])

/-- The `created_at` of `events[-1]` after sorting ascending and reversing,
i.e. the minimum timestamp in the list; `none` when the list is empty (in
which case the Python indexes an empty list and raises `IndexError`). -/
def oldestCreated (events : List Event) : Option Int :=
  (events.map (·.created)).min?

/-- `prune(iterable, start, end)`: returns `none` when the Python raises
(`events[-1]` on an empty history), otherwise the completeness-check
warning flag (`oldest.created_at >= start`) together with the events
satisfying `start <= created_at < end`. -/
def prune (events : List Event) (start stop : Int) :
    Option (Bool × List Event) :=
  match oldestCreated events with
  | none => none
  | some oldest =>
      some (decide (start ≤ oldest),
            events.filter (fun e => decide (start ≤ e.created ∧ e.created < stop)))

/-- Python's `sep.join(words)`. -/
def strJoin (sep : String) : List String → String
  | [] => ""
  | [w] => w
  | w :: ws => w ++ sep ++ strJoin sep ws

/-- `grammatical_join(words)` from `src/sources/github.py`: two words are
joined with " and "; otherwise the last two words are joined with
", and " and everything is joined with ", ". -/
def grammatical_join (words : List String) : String :=
  if words.length = 2 then strJoin " and " words
  else strJoin ", "
    (words.take (words.length - 2) ++ [strJoin ", and " (words.drop (words.length - 2))])

/-- The loop of `uniq`: `previous` is the last yielded element (`none`
initially, matching Python's `previous = None` sentinel, which never equals
a string item). -/
def uniqGo (previous : Option String) : List String → List String
  | [] => []
  | x :: xs => if some x = previous then uniqGo previous xs
               else x :: uniqGo (some x) xs

/-- `uniq(iterable)`: drops consecutively repeated elements. -/
def uniq (l : List String) : List String := uniqGo none l

/-- The per-event action computation in `handle_pr_events`: a `closed`
action on a merged pull request becomes `merged`; then, when the pull
request's author is the report subject, `opened` becomes `proposed` and
`closed` becomes `rescinded`. -/
def prAction (action : String) (merged : Bool) (author subject : String) : String :=
  let action := if action = "closed" && merged then "merged" else action
  if author = subject then
    let action := if action = "opened" then "proposed" else action
    let action := if action = "closed" then "rescinded" else action
    action
  else action

/-! ## Bugzilla (`src/sources/bugzilla.py`) -/

/-- The activity-type constants of `src/sources/bugzilla.py`. -/
def REPORTED : String := "reported"

def ATTACHMENTS : String := "attachments"

def NEEDINFO : String := "needinfo"

def DISCUSSED : String := "discussed"

def STATUS : String := "status"

def TAGGED : String := "tagged"

def METADATA : String := "metadata"

def TRIAGED : String := "triaged"

def OTHER : String := "other"

/-- Whether the first character list is a prefix of the second. -/
def listIsPrefix : List Char → List Char → Bool
  | [], _ => true
  | _ :: _, [] => false
  | a :: as, b :: bs => a = b && listIsPrefix as bs

/-- Whether the first character list occurs contiguously in the second. -/
def listIsInfix (needle : List Char) : List Char → Bool
  | [] => needle.isEmpty
  | c :: rest => listIsPrefix needle (c :: rest) || listIsInfix needle rest

/-- Python's substring test `needle in hay`. -/
def strContains (hay needle : String) : Bool :=
  listIsInfix needle.toList hay.toList

/-- Python's `s.startswith(p)`. -/
def strStartsWith (s p : String) : Bool :=
  listIsPrefix p.toList s.toList

/-- The `ignore` field-name list inside `classify`. -/
def ignoreFields : List String :=
  ["CC", "Hardware", "Version", "OS", "Last Resolved", "Ever confirmed"]

/-- The `meta` field-name list inside `classify`. -/
def metaFields : List String :=
  ["Whiteboard", "See Also", "Blocks", "Depends on", "Keywords", "Summary"]

/-- `classify(what, old, new)` from `src/sources/bugzilla.py`: the ordered
first-match cascade over the changed field's name and old/new values;
`none` models `return None` for the ignore set. -/
def classify (what old new : String) : Option String :=
  if ignoreFields.contains what then none
  else if what = "Bug ID" && old = "(new bug)" then some REPORTED
  else if strStartsWith what "Attachment " then some ATTACHMENTS
  else if what = "Flags" && (strContains new "needinfo" || strContains old "needinfo") then
    some NEEDINFO
  else if strStartsWith what "Comment " then some DISCUSSED
  else if what = "Status" || what = "Resolution" then some STATUS
  else if what = "Keywords" && strContains new "DevAdvocacy" then some TAGGED
  else if what = "Whiteboard" && (strContains new "DevRel:P" != strContains old "DevRel:P") then
    some TRIAGED
  else if metaFields.contains what then some METADATA
  else some OTHER

/-- The claim's rule table for the classifier, transcribed from the spec's
words with one amendment: the Tagged rule fires whenever the new Keywords
value contains the DevAdvocacy tag, whether or not the old value already
contained it (the spec's "newly containing, i.e. present in new but not in
old" does not match the code). Used only to compare with `classify`. -/
def classifyRuleTable (what old new : String) : Option String :=
  if ignoreFields.contains what then none
  else if what = "Bug ID" && old = "(new bug)" then some REPORTED
  else if strStartsWith what "Attachment " then some ATTACHMENTS
  else if what = "Flags" && (strContains new "needinfo" || strContains old "needinfo") then
    some NEEDINFO
  else if strStartsWith what "Comment " then some DISCUSSED
  else if what = "Status" || what = "Resolution" then some STATUS
  else if what = "Keywords" && strContains new "DevAdvocacy" then some TAGGED
  else if what = "Whiteboard" && (strContains new "DevRel:P" != strContains old "DevRel:P") then
    some TRIAGED
  else if metaFields.contains what then some METADATA
  else some OTHER

/-- The bucket priority order of the partition cascade in `report`
(`src/sources/bugzilla.py`, lines 156-171). -/
def prioOrder : List String :=
  [REPORTED, ATTACHMENTS, NEEDINFO, DISCUSSED, STATUS, TAGGED, METADATA, OTHER]

/-- The per-bug branch of the partition loop in `report`: the bucket the bug
is appended to, or `none` when the bug is skipped because its only recorded
action is `TRIAGED`. The final `some OTHER` models the `else` branch that
warns about an unrecognized action set and files the bug under `OTHER`. -/
def select (actions : List String) : Option String :=
  if actions.contains REPORTED then some REPORTED
  else if actions.contains ATTACHMENTS then some ATTACHMENTS
  else if actions.contains NEEDINFO then some NEEDINFO
  else if actions.contains DISCUSSED then some DISCUSSED
  else if actions.contains STATUS then some STATUS
  else if actions.contains TAGGED then some TAGGED
  else if actions.contains METADATA then some METADATA
  else if actions.contains OTHER then some OTHER
  else if actions.contains TRIAGED then none
  else some OTHER

/-- The contents of `buglists[bucket]` after the partition loop of `report`:
the bugs of `activity` (an association list `bug ↦ action set`, as the
Python dict iterates it) whose selected bucket is `bucket`. -/
def bucketBugs (activity : List (String × List String)) (bucket : String) :
    List String :=
  activity.filterMap (fun p => if select p.2 = some bucket then some p.1 else none)

/-- The `triaged` list computed at the end of `report`: every bug whose
action set contains `TRIAGED`. -/
def triagedBugs (activity : List (String × List String)) : List String :=
  (activity.filter (fun p => p.2.contains TRIAGED)).map (·.1)

/-- The triaged section written by `report`: a function of the count alone
(`'#### Triaged {} DevAdvocacy Bugs'` plus `'* _not listed_'`), empty when
no bug was triaged. -/
def triagedSection (n : Nat) : String :=
  if n = 0 then ""
  else "#### Triaged " ++ toString n ++ " DevAdvocacy Bugs\n\n* _not listed_\n"

/-! ## Theorems -/

/-- Claim C1: in the pull-request handler, when the report subject is the
author, `opened` becomes `proposed` and `closed` becomes `rescinded`; but a
`closed` action on a merged pull request renders as `merged` — never
`rescinded` — even when the author is the report subject. -/
theorem prAction_self_reframing_preserves_merged :
    ∀ (author subject : String) (merged : Bool),
      (author = subject → prAction "opened" merged author subject = "proposed") ∧
      (author = subject → prAction "closed" false author subject = "rescinded") ∧
      prAction "closed" true author subject = "merged" := by
  intro author subject merged
  refine ⟨fun h => ?_, fun h => ?_, ?_⟩
  · subst h; cases merged <;> simp [prAction]
  · subst h; simp [prAction]
  · by_cases h : author = subject <;> simp [prAction, h]

/-- Witness for C1 at a concrete author/subject. -/
theorem prAction_self_reframing_preserves_merged_witness :
    prAction "opened" false "alice" "alice" = "proposed" ∧
    prAction "closed" false "alice" "alice" = "rescinded" ∧
    prAction "closed" true "alice" "alice" = "merged" :=
  ⟨(prAction_self_reframing_preserves_merged "alice" "alice" false).1 rfl,
   (prAction_self_reframing_preserves_merged "alice" "alice" false).2.1 rfl,
   (prAction_self_reframing_preserves_merged "alice" "alice" false).2.2⟩

/-- Claim C2 fails on the code: the missing commas in the `IGNORE_EVENTS`
literal fuse `DownloadEvent`, `FollowEvent`, `ForkApplyEvent`, `GistEvent`
and `DeploymentEvent` into one concatenated element, so none of those five
kinds is in the executed ignore list; an event of kind `DeploymentEvent`
is therefore outside `KNOWN_EVENTS` and the verbose filter pass emits a
warning for it instead of silently ignoring it. -/
theorem deploymentEvent_not_ignored_but_warned :
    IGNORE_EVENTS.contains "DeploymentEvent" = false ∧
    IGNORE_EVENTS.contains "DownloadEvent" = false ∧
    IGNORE_EVENTS.contains "GistEvent" = false ∧
    IGNORE_EVENTS.contains
      "DownloadEventFollowEventForkApplyEventGistEventDeploymentEvent" = true ∧
    KNOWN_EVENTS.contains "DeploymentEvent" = false ∧
    (filter_types KNOWN_EVENTS [⟨0, "DeploymentEvent"⟩] true).2 =
      ["Warning: Ignored or unknown event type: DeploymentEvent"] ∧
    (filter_types KNOWN_EVENTS [⟨0, "ForkEvent"⟩] true).2 = [] := by
  decide

/-- Claim C4 fails on the code: on an empty event history `prune` evaluates
`events[-1]`, raising `IndexError` (modelled by `none`) instead of
completing with a best-effort result. -/
theorem prune_empty_raises : prune [] 0 10 = none := rfl

/-- Claim C8: the grammatical join returns a one-element list's sole word,
joins two words with " and ", and joins three or more words with ", "
using an oxford ", and " before the final word. -/
theorem grammatical_join_cases :
    ∀ A B C : String,
      grammatical_join [A] = A ∧
      grammatical_join [A, B] = A ++ " and " ++ B ∧
      grammatical_join [A, B, C] = A ++ ", " ++ (B ++ ", and " ++ C) := by
  intro A B C
  refine ⟨?_, ?_, ?_⟩ <;> simp [grammatical_join, strJoin]

/-- Helper: collapsing consecutive duplicates is idempotent for every
value of the `previous` sentinel. -/
theorem uniqGo_idem (l : List String) :
    ∀ p, uniqGo p (uniqGo p l) = uniqGo p l := by
  induction l with
  | nil => intro p; rfl
  | cons x xs ih =>
      intro p
      by_cases h : some x = p
      · simp only [uniqGo, if_pos h]
        exact ih p
      · simp only [uniqGo, if_neg h]
        rw [ih (some x)]

/-- Claim C10: consecutive-duplicate collapse is idempotent, and
non-consecutive duplicates are preserved (an `opened`/`closed`/`opened`
oscillation stays intact). -/
theorem uniq_idempotent :
    (∀ l : List String, uniq (uniq l) = uniq l) ∧
    uniq ["opened", "closed", "opened"] = ["opened", "closed", "opened"] :=
  ⟨fun l => uniqGo_idem l none, by decide⟩

/-- Claim C5: every event returned by the date-range pruner lies in the
half-open window `start <= created_at < end`. -/
theorem prune_in_window :
    ∀ (events : List Event) (start stop : Int) (w : Bool) (out : List Event)
      (e : Event),
      prune events start stop = some (w, out) → e ∈ out →
      start ≤ e.created ∧ e.created < stop := by
  intro events start stop w out e hp he
  cases h : oldestCreated events with
  | none => simp [prune, h] at hp
  | some oldest =>
      simp only [prune, h, Option.some.injEq, Prod.mk.injEq] at hp
      obtain ⟨-, hout⟩ := hp
      subst hout
      rw [List.mem_filter] at he
      exact of_decide_eq_true he.2

/-- Witness for C5 at a concrete event list. -/
theorem prune_in_window_witness :
    (0 : Int) ≤ (⟨5, "PushEvent"⟩ : Event).created ∧
    (⟨5, "PushEvent"⟩ : Event).created < 10 :=
  prune_in_window [⟨5, "PushEvent"⟩] 0 10 true [⟨5, "PushEvent"⟩]
    ⟨5, "PushEvent"⟩ rfl (by simp)

/-- Claim C9: when the unfiltered history is nonempty (its oldest timestamp
exists), `prune` does not fail; its warning flag is set exactly when the
oldest timestamp is `>= start` (and cleared when the oldest event is
strictly older than `start`), and it returns exactly the in-window
events. -/
theorem prune_completeness_warning :
    ∀ (events : List Event) (start stop oldest : Int),
      oldestCreated events = some oldest →
      prune events start stop =
        some (decide (start ≤ oldest),
              events.filter (fun e => decide (start ≤ e.created ∧ e.created < stop))) := by
  intro events start stop oldest h
  simp [prune, h]

/-- Witness for C9: a single event at time 5 with window [0, 10) sets the
completeness warning. -/
theorem prune_completeness_warning_witness :
    prune [⟨5, "PushEvent"⟩] 0 10 = some (true, [⟨5, "PushEvent"⟩]) := by
  have h := prune_completeness_warning [⟨5, "PushEvent"⟩] 0 10 5 rfl
  simpa using h

/-- Counterexample for claim C3: the claimed Tagged rule demands the
DevAdvocacy tag be present in the new Keywords value but absent from the
old one; the code tests only the new value, so a change whose old value
already carries the tag is still classified Tagged (the claim's cascade
would file it under Metadata, since `Keywords` is a metadata field). -/
theorem classify_tagged_counterexample :
    classify "Keywords" "DevAdvocacy" "DevAdvocacy" = some TAGGED ∧
    strContains "DevAdvocacy" "DevAdvocacy" = true ∧
    TAGGED ≠ METADATA := by
  decide

/-- Claim C3 as amended: the classifier is exactly the first-match rule
table of the claim, with the Tagged rule firing whenever the new Keywords
value contains the DevAdvocacy tag, regardless of the old value. -/
theorem classify_matches_rule_table :
    ∀ what old new, classify what old new = classifyRuleTable what old new :=
  fun _ _ _ => rfl

/-- Claim C6: bucket selection is a deterministic function returning the
first bucket of the fixed priority order present in the item's touched
set. -/
theorem select_first_match :
    ∀ (actions : List String) (b : String),
      prioOrder.find? (fun x => actions.contains x) = some b →
      select actions = some b := by
  intro actions b h
  simp only [prioOrder] at h
  by_cases h1 : actions.contains REPORTED = true
  · rw [List.find?_cons_of_pos _ h1] at h
    injection h with hb
    subst hb
    simp_all [select]
  · rw [List.find?_cons_of_neg _ h1] at h
    by_cases h2 : actions.contains ATTACHMENTS = true
    · rw [List.find?_cons_of_pos _ h2] at h
      injection h with hb
      subst hb
      simp_all [select]
    · rw [List.find?_cons_of_neg _ h2] at h
      by_cases h3 : actions.contains NEEDINFO = true
      · rw [List.find?_cons_of_pos _ h3] at h
        injection h with hb
        subst hb
        simp_all [select]
      · rw [List.find?_cons_of_neg _ h3] at h
        by_cases h4 : actions.contains DISCUSSED = true
        · rw [List.find?_cons_of_pos _ h4] at h
          injection h with hb
          subst hb
          simp_all [select]
        · rw [List.find?_cons_of_neg _ h4] at h
          by_cases h5 : actions.contains STATUS = true
          · rw [List.find?_cons_of_pos _ h5] at h
            injection h with hb
            subst hb
            simp_all [select]
          · rw [List.find?_cons_of_neg _ h5] at h
            by_cases h6 : actions.contains TAGGED = true
            · rw [List.find?_cons_of_pos _ h6] at h
              injection h with hb
              subst hb
              simp_all [select]
            · rw [List.find?_cons_of_neg _ h6] at h
              by_cases h7 : actions.contains METADATA = true
              · rw [List.find?_cons_of_pos _ h7] at h
                injection h with hb
                subst hb
                simp_all [select]
              · rw [List.find?_cons_of_neg _ h7] at h
                by_cases h8 : actions.contains OTHER = true
                · rw [List.find?_cons_of_pos _ h8] at h
                  injection h with hb
                  subst hb
                  simp_all [select]
                · rw [List.find?_cons_of_neg _ h8] at h
                  simp at h

/-- Witness for C6: a touched set holding both Reported and Other selects
Reported alone. -/
theorem select_first_match_witness :
    select [REPORTED, OTHER] = some REPORTED :=
  select_first_match [REPORTED, OTHER] REPORTED (by decide)

/-- Helper: a bug whose recorded actions contain `TRIAGED` but no bucket of
the priority order is skipped by the partition loop. -/
theorem select_none_of_triaged_only :
    ∀ acts : List String, acts.contains TRIAGED = true →
      (∀ x ∈ prioOrder, acts.contains x = false) → select acts = none := by
  intro acts ht hall
  have hR := hall REPORTED (by simp [prioOrder])
  have hA := hall ATTACHMENTS (by simp [prioOrder])
  have hN := hall NEEDINFO (by simp [prioOrder])
  have hD := hall DISCUSSED (by simp [prioOrder])
  have hS := hall STATUS (by simp [prioOrder])
  have hT := hall TAGGED (by simp [prioOrder])
  have hM := hall METADATA (by simp [prioOrder])
  have hO := hall OTHER (by simp [prioOrder])
  simp_all [select]

/-- Claim C7: a bug whose `TRIAGED` action is recorded is counted by the
triaged tally (whose rendering depends on the count alone, never on bug
identities), and when `TRIAGED` is its only touched bucket — no priority
bucket is touched, and the activity map holds no other action set for it —
the bug appears in no itemized bucket list. -/
theorem triaged_only_excluded :
    ∀ (activity : List (String × List String)) (bug : String)
      (acts : List String),
      (bug, acts) ∈ activity →
      acts.contains TRIAGED = true →
      bug ∈ triagedBugs activity ∧
      ((∀ x ∈ prioOrder, acts.contains x = false) →
        (∀ p ∈ activity, p.1 = bug → p.2 = acts) →
        ∀ b, bug ∉ bucketBugs activity b) := by
  intro activity bug acts hmem ht
  constructor
  · simp only [triagedBugs, List.mem_map, List.mem_filter]
    exact ⟨(bug, acts), ⟨hmem, ht⟩, rfl⟩
  · intro hall huniq b hb
    simp only [bucketBugs, List.mem_filterMap] at hb
    obtain ⟨p, hp, heq⟩ := hb
    by_cases hs : select p.2 = some b
    · rw [if_pos hs] at heq
      injection heq with h1
      have hpacts := huniq p hp h1
      rw [hpacts, select_none_of_triaged_only acts ht hall] at hs
      exact Option.noConfusion hs
    · rw [if_neg hs] at heq
      exact Option.noConfusion heq

/-- Witness for C7: a single bug touched only by Triaged is tallied but
listed in no bucket. -/
theorem triaged_only_excluded_witness :
    "123" ∈ triagedBugs [("123", [TRIAGED])] ∧
    "123" ∉ bucketBugs [("123", [TRIAGED])] REPORTED := by
  have h := triaged_only_excluded [("123", [TRIAGED])] "123" [TRIAGED]
    (by simp) (by decide)
  exact ⟨h.1, h.2 (by decide) (by simp) REPORTED⟩

end Historian
